import Mathlib

/-
Verification of the MitraVerify backend (src/MitraVerify-Backend).
The Python modules under src/core and src/utils are shallowly embedded:
dictionaries become structures, confidences become rationals, and the
model / retrieval back ends become explicit oracle parameters returning
Except values so that raised exceptions are visible.
-/

namespace MitraVerify

/-- Boolean test that the first character list is an initial segment of the
second one. -/
def startsWithChars : List Char → List Char → Bool
  | [], _ => true
  | _ :: _, [] => false
  | a :: as, b :: bs => a == b && startsWithChars as bs

/-- Boolean test that `needle` occurs as a contiguous run inside `hay`,
modelling the Python `in` operator on strings. -/
def containsSub (needle : List Char) : List Char → Bool
  | [] => needle.isEmpty
  | c :: rest => startsWithChars needle (c :: rest) || containsSub needle rest

/-- Python `needle in hay` on strings. -/
def strContains (hay needle : String) : Bool :=
  containsSub needle.toList hay.toList

/-- Python str.strip: drop leading and trailing whitespace. -/
def pyStrip (s : String) : String :=
  String.mk (((s.toList.dropWhile Char.isWhitespace).reverse.dropWhile
    Char.isWhitespace).reverse)

/-- Python str.lower, restricted to the ASCII case mapping. -/
def pyLower (s : String) : String :=
  String.mk (s.toList.map Char.toLower)

/-- Helper for pySplit: accumulate the current word in reverse. -/
def pySplitAux : List Char → List Char → List String
  | [], acc => if acc.isEmpty then [] else [String.mk acc.reverse]
  | c :: cs, acc =>
    if c.isWhitespace then
      if acc.isEmpty then pySplitAux cs []
      else String.mk acc.reverse :: pySplitAux cs []
    else pySplitAux cs (c :: acc)

/-- Python str.split with no argument: split on runs of whitespace,
dropping empty pieces. -/
def pySplit (s : String) : List String :=
  pySplitAux s.toList []

/-! Embedding of src/utils/language_detection.py. -/

/-- Characters of the Devanagari Unicode block, the Python regex
`[ऀ-ॿ]`. -/
def isDevanagari (c : Char) : Bool :=
  0x900 ≤ c.toNat && c.toNat ≤ 0x97F

/-- Latin letters, the Python regex `[a-zA-Z]`. -/
def isLatinLetter (c : Char) : Bool :=
  (('a' ≤ c) && (c ≤ 'z')) || (('A' ≤ c) && (c ≤ 'Z'))

/-- Fixed word list checked by detect_language, from the source. -/
def hindiWords : List String :=
  ["hai", "hai", "नहीं", "क्या", "हो", "था", "थी", "होता", "होती"]

/-- Embedding of detect_language: the function strips the text, returns
"unknown" for blank input, and otherwise applies the character-ratio and
word-lookup heuristic to the stripped text. -/
def detect_language (text : String) : String :=
  if pyStrip text = "" then "unknown"
  else
    let t := pyStrip text
    let hindiChars := t.toList.filter isDevanagari
    let englishChars := t.toList.filter isLatinLetter
    let hindiFrac : ℚ := if t.length ≠ 0 then (hindiChars.length : ℚ) / (t.length : ℚ) else 0
    let englishFrac : ℚ := if t.length ≠ 0 then (englishChars.length : ℚ) / (t.length : ℚ) else 0
    if hindiFrac > 0.1 then "hi"
    else if englishFrac > 0.1 then "en"
    else if hindiWords.any (fun w => strContains (pyLower t) w) then "hi"
    else "en"

/-- The behaviour claim C9 ascribes to detect_language on a given text:
Devanagari ratio over 0.1 gives "hi", else Latin-letter ratio over 0.1
gives "en", else a fixed Hindi word lookup gives "hi", else "en". -/
def detect_language_claim (text : String) : String :=
  let hindiChars := text.toList.filter isDevanagari
  let englishChars := text.toList.filter isLatinLetter
  let hindiFrac : ℚ := if text.length ≠ 0 then (hindiChars.length : ℚ) / (text.length : ℚ) else 0
  let englishFrac : ℚ := if text.length ≠ 0 then (englishChars.length : ℚ) / (text.length : ℚ) else 0
  if hindiFrac > 0.1 then "hi"
  else if englishFrac > 0.1 then "en"
  else if hindiWords.any (fun w => strContains (pyLower text) w) then "hi"
  else "en"

/-- C9 counterexample: the single-space string is a non-empty input on which
detect_language returns "unknown", while the claimed formula returns "en". -/
theorem detect_language_claim_fails_on_blank :
    (" " : String) ≠ "" ∧ detect_language " " = "unknown" ∧
      detect_language_claim " " = "en" ∧
      detect_language " " ≠ detect_language_claim " " := by
  have h1 : List.filter isDevanagari (" " : String).toList = [] := by decide
  have h2 : List.filter isLatinLetter (" " : String).toList = [] := by decide
  have h3 : (" " : String).length = 1 := by decide
  have h4 : hindiWords.any (fun w => strContains (pyLower (" " : String)) w) = false := by
    decide
  have hclaim : detect_language_claim " " = "en" := by
    unfold detect_language_claim
    rw [h1, h2, h3, h4]
    norm_num
  have hcode : detect_language " " = "unknown" := by decide
  refine ⟨by decide, hcode, hclaim, ?_⟩
  rw [hcode, hclaim]
  decide

/-- C9 (amended): for every input whose whitespace-stripped form is
non-empty, detect_language returns exactly what the claimed formula gives
on the stripped text; blank input instead returns "unknown". -/
theorem detect_language_eq_claim_of_strip_ne (text : String)
    (h : pyStrip text ≠ "") :
    detect_language text = detect_language_claim (pyStrip text) := by
  unfold detect_language detect_language_claim
  rw [if_neg h]

/-- C9 witness: the amended theorem applied to a concrete English text. -/
theorem detect_language_eq_claim_witness :
    detect_language "hello world" = detect_language_claim "hello world" := by
  have h : pyStrip "hello world" ≠ "" := by decide
  have h2 : pyStrip "hello world" = "hello world" := by decide
  have := detect_language_eq_claim_of_strip_ne "hello world" h
  rwa [h2] at this

/-! Embedding of src/core/text_analyzer.py. -/

/-- Misinformation indicator keywords, from the source. -/
def misinfo_keywords : List String :=
  ["fake", "hoax", "conspiracy", "secret", "hidden", "exposed", "truth",
   "lie", "cover-up", "scandal", "shocking", "urgent", "warning"]

/-- Reliability indicator keywords, from the source. -/
def reliable_keywords : List String :=
  ["study", "research", "evidence", "data", "analysis", "expert",
   "scientist", "doctor", "professor", "university", "official"]

/-- Label table id2label of the analyzer: 0 is reliable, 1 is misinformation. -/
def id2label (c : ℕ) : String :=
  if c = 1 then "misinformation" else "reliable"

/-- Number of keywords of the list occurring in the lower-cased text. -/
def countKeywords (keywords : List String) (textLower : String) : ℕ :=
  keywords.countP (fun k => strContains textLower k)

/-- Keyword branch of _enhance_prediction: given the two keyword counts, the
current predicted class and the running confidence adjustment, return the
possibly flipped class and the updated adjustment. -/
def keywordStep (misinfoCount reliableCount : ℕ) (predictedClass : ℕ)
    (adjustments : ℚ) : ℕ × ℚ :=
  if misinfoCount > reliableCount ∧ misinfoCount > 0 then
    if predictedClass = 1 then
      (predictedClass, adjustments + (0.1 + (misinfoCount : ℚ) * 0.05))
    else if misinfoCount ≥ 2 then (1, adjustments + 0.2)
    else (predictedClass, adjustments - 0.1)
  else if reliableCount > misinfoCount ∧ reliableCount > 0 then
    if predictedClass = 0 then
      (predictedClass, adjustments + (0.1 + (reliableCount : ℚ) * 0.05))
    else if reliableCount ≥ 2 then (0, adjustments + 0.2)
    else (predictedClass, adjustments - 0.1)
  else (predictedClass, adjustments)

/-- Embedding of _generate_explanation; the text argument of the source is
unused there and dropped here. -/
def generate_explanation (prediction : String) (confidence : ℚ) : String :=
  if prediction = "misinformation" then
    if confidence > 0.8 then
      "High confidence detection of misinformation patterns in the text."
    else if confidence > 0.6 then
      "Moderate confidence detection of potential misinformation."
    else "Low confidence detection of possible misinformation patterns."
  else
    if confidence > 0.8 then "High confidence that the text appears reliable."
    else if confidence > 0.6 then
      "Moderate confidence that the text appears reliable."
    else "Low confidence assessment - text may need further verification."

/-- Output record of _enhance_prediction; the probabilities pair is ordered
as (reliable, misinformation). -/
structure EnhancedResult where
  prediction : String
  confidence : ℚ
  probabilities : ℚ × ℚ
  language : String
  explanation : String
deriving DecidableEq

/-- Embedding of _enhance_prediction. The incoming probability array of the
source is never read there and is dropped; the average word and sentence
lengths computed by the source are never used and are dropped as well. -/
def enhance_prediction (text : String) (predictedClass : ℕ)
    (rawConfidence : ℚ) (detectedLanguage : String) : EnhancedResult :=
  let textLower := pyLower text
  let words := pySplit text
  let misinfoCount := countKeywords misinfo_keywords textLower
  let reliableCount := countKeywords reliable_keywords textLower
  let step := keywordStep misinfoCount reliableCount predictedClass 0
  let cls := step.1
  let adj1 := step.2
  let adj2 := if words.length < 5 then adj1 - 0.1 else adj1
  let capsFrac : ℚ :=
    if text.length ≠ 0 then
      ((text.toList.countP Char.isUpper : ℕ) : ℚ) / (text.length : ℚ)
    else 0
  let adj3 :=
    if capsFrac > 0.3 then (if cls = 1 then adj2 + 0.1 else adj2 - 0.05)
    else adj2
  let finalConfidence := max 0.1 (min 0.95 (rawConfidence + adj3))
  let finalProbabilities :=
    if cls = 1 then (1 - finalConfidence, finalConfidence)
    else (finalConfidence, 1 - finalConfidence)
  { prediction := id2label cls
    confidence := finalConfidence
    probabilities := finalProbabilities
    language := detectedLanguage
    explanation := generate_explanation (id2label cls) finalConfidence }

/-- Text signal as returned by analyze_text; probabilities is absent on the
error path, mirroring the missing dictionary key of the source. -/
structure TextResult where
  prediction : Option String
  confidence : ℚ
  probabilities : Option (ℚ × ℚ)
  language : String
  explanation : String
  error : Option String
deriving DecidableEq

/-- Embedding of analyze_text. The tokenizer, model and softmax are one
oracle returning the class probability pair (reliable, misinformation), or
raising; argmax resolves ties toward class 0 as numpy does. -/
def analyze_text (text : String)
    (model : String → Except String (ℚ × ℚ)) : TextResult :=
  match model text with
  | .error e =>
      { prediction := some "error", confidence := 0, probabilities := none,
        language := if text ≠ "" then detect_language text else "unknown",
        explanation := "", error := some e }
  | .ok probs =>
      let detectedLanguage := detect_language text
      let predictedClass := if probs.2 > probs.1 then 1 else 0
      let rawConfidence := if probs.2 > probs.1 then probs.2 else probs.1
      let enhanced :=
        enhance_prediction text predictedClass rawConfidence detectedLanguage
      { prediction := some enhanced.prediction
        confidence := enhanced.confidence
        probabilities := some enhanced.probabilities
        language := detect_language text
        explanation := generate_explanation enhanced.prediction enhanced.confidence
        error := none }

/-- C7: with more misinformation than reliability keywords and a reliable
model prediction, a count of at least 2 flips the label to misinformation
and adds 0.2 to the adjustment, while a count of exactly 1 keeps the label
and subtracts 0.1; the symmetric branches behave the same with the keyword
classes exchanged; through enhance_prediction the flip reaches the final
predicted label. -/
theorem keyword_flip_behaviour :
    (∀ (m r : ℕ) (adj : ℚ), r < m → 2 ≤ m →
      keywordStep m r 0 adj = (1, adj + 0.2)) ∧
    (∀ (r : ℕ) (adj : ℚ), r < 1 →
      keywordStep 1 r 0 adj = (0, adj - 0.1)) ∧
    (∀ (m r : ℕ) (adj : ℚ), m < r → 2 ≤ r →
      keywordStep m r 1 adj = (0, adj + 0.2)) ∧
    (∀ (m : ℕ) (adj : ℚ), m < 1 →
      keywordStep m 1 1 adj = (1, adj - 0.1)) ∧
    (∀ (text : String) (rawConf : ℚ) (lang : String),
      countKeywords reliable_keywords (pyLower text) <
        countKeywords misinfo_keywords (pyLower text) →
      2 ≤ countKeywords misinfo_keywords (pyLower text) →
      (enhance_prediction text 0 rawConf lang).prediction = "misinformation") := by
  have flip : ∀ (m r : ℕ) (adj : ℚ), r < m → 2 ≤ m →
      keywordStep m r 0 adj = (1, adj + 0.2) := by
    intro m r adj h1 h2
    unfold keywordStep
    rw [if_pos ⟨h1, lt_of_lt_of_le (by norm_num) h2⟩, if_neg (by decide),
      if_pos h2]
  refine ⟨flip, ?_, ?_, ?_, ?_⟩
  · intro r adj h1
    unfold keywordStep
    rw [if_pos ⟨h1, by decide⟩, if_neg (by decide), if_neg (by decide)]
  · intro m r adj h1 h2
    unfold keywordStep
    rw [if_neg (fun h => absurd h.1 (not_lt_of_gt h1)),
      if_pos ⟨h1, lt_of_lt_of_le (by norm_num) h2⟩, if_neg (by decide),
      if_pos h2]
  · intro m adj h1
    unfold keywordStep
    rw [if_neg (fun h => absurd h.1 (not_lt_of_gt h1)),
      if_pos ⟨h1, by decide⟩, if_neg (by decide), if_neg (by decide)]
  · intro text rawConf lang h1 h2
    have hstep := flip _ _ 0 h1 h2
    unfold enhance_prediction
    simp only [hstep]
    rfl

/-- C7 witness: the theorem instantiated at concrete counts and at the text
"fake hoax", which holds two misinformation keywords and no reliability
keyword. -/
theorem keyword_flip_behaviour_witness :
    keywordStep 2 0 0 0 = (1, 0 + 0.2) ∧
    keywordStep 1 0 0 0 = (0, 0 - 0.1) ∧
    keywordStep 0 2 1 0 = (0, 0 + 0.2) ∧
    keywordStep 0 1 1 0 = (1, 0 - 0.1) ∧
    (enhance_prediction "fake hoax" 0 0.9 "en").prediction =
      "misinformation" := by
  obtain ⟨h1, h2, h3, h4, h5⟩ := keyword_flip_behaviour
  exact ⟨h1 2 0 0 (by decide) (by decide), h2 0 0 (by decide),
    h3 0 2 0 (by decide) (by decide), h4 0 0 (by decide),
    h5 "fake hoax" 0.9 "en" (by decide) (by decide)⟩

/-- C8 (amended): when the model call succeeds, the confidence of the text
signal is clamped into [0.10, 0.95]; when the model call raises, the error
signal carries confidence 0, which lies outside that interval. -/
theorem analyze_text_confidence_range (text : String)
    (model : String → Except String (ℚ × ℚ)) :
    (∀ p, model text = .ok p →
      0.1 ≤ (analyze_text text model).confidence ∧
        (analyze_text text model).confidence ≤ 0.95) ∧
    (∀ m, model text = .error m →
      (analyze_text text model).confidence = 0) := by
  constructor
  · intro p hp
    unfold analyze_text
    rw [hp]
    refine ⟨le_max_left _ _, max_le (by norm_num) (min_le_left _ _)⟩
  · intro m hm
    unfold analyze_text
    rw [hm]

/-- C8 witness: the theorem instantiated with a succeeding and with a
raising model oracle. -/
theorem analyze_text_confidence_range_witness :
    (0.1 ≤ (analyze_text "the earth is flat"
        (fun _ => Except.ok (0.4, 0.6))).confidence ∧
      (analyze_text "the earth is flat"
        (fun _ => Except.ok (0.4, 0.6))).confidence ≤ 0.95) ∧
    (analyze_text "the earth is flat"
        (fun _ => Except.error "model failure")).confidence = 0 :=
  ⟨(analyze_text_confidence_range "the earth is flat" _).1 (0.4, 0.6) rfl,
    (analyze_text_confidence_range "the earth is flat" _).2 "model failure" rfl⟩

/-- C8 counterexample: a raising model call returns the error text signal
whose confidence 0 lies outside [0.10, 0.95], refuting the range claim for
every text input. -/
theorem analyze_text_confidence_range_counterexample :
    (analyze_text "Breaking news"
        (fun _ => Except.error "model failure")).confidence = 0 ∧
    ¬ (0.1 ≤ (analyze_text "Breaking news"
        (fun _ => Except.error "model failure")).confidence ∧
      (analyze_text "Breaking news"
        (fun _ => Except.error "model failure")).confidence ≤ 0.95) := by
  have h : (analyze_text "Breaking news"
      (fun _ => Except.error "model failure")).confidence = 0 := rfl
  refine ⟨h, ?_⟩
  rw [h]
  norm_num

/-! Embedding of src/core/fusion_engine.py, method _fuse_results. -/

/-- Image signal as consumed by the fusion engine. -/
structure ImageResult where
  verdict : String
  confidence : ℚ
deriving DecidableEq

/-- Evidence item as consumed by the fusion engine: a fact-check record
decorated with its cosine similarity to the query. -/
structure EvidenceItem where
  claim : String
  verdict : String
  similarity : ℚ
deriving DecidableEq

/-- Rationale sentences appended to the fused explanation, one constructor
per f-string of the source, carrying the formatted values. -/
inductive Rationale where
  | textMisinformation (conf : ℚ)
  | textReliable (conf : ℚ)
  | analysisDetails (s : String)
  | imageManipulationConflict (conf : ℚ)
  | imageManipulationConfirm (conf : ℚ)
  | imageAuthentic (conf : ℚ)
  | imageAuthenticConfirm (conf : ℚ)
  | debunkedClaims (count : ℕ)
deriving DecidableEq

/-- Mutable state of one fusion pass: verdict, confidence and the list of
rationale sentences collected so far. -/
structure FusionState where
  overall_verdict : String
  confidence : ℚ
  explanations : List Rationale
deriving DecidableEq

/-- Neutral values the fusion pass starts from. -/
def initialFusionState : FusionState :=
  { overall_verdict := "unknown", confidence := 0.5, explanations := [] }

/-- Text analysis contribution of _fuse_results. -/
def text_contribution : Option TextResult → FusionState → FusionState
  | none, s => s
  | some t, s =>
    let predictionStr := match t.prediction with | none => "" | some p => p
    if predictionStr ≠ "" ∧ predictionStr ≠ "error" ∧ predictionStr ≠ "None" then
      let s1 :=
        if predictionStr = "misinformation" then
          { overall_verdict := "misinformation", confidence := t.confidence,
            explanations :=
              s.explanations ++ [.textMisinformation t.confidence] }
        else
          { overall_verdict := "reliable", confidence := t.confidence,
            explanations := s.explanations ++ [.textReliable t.confidence] }
      if t.explanation.length > 10 then
        { s1 with
          explanations := s1.explanations ++ [.analysisDetails t.explanation] }
      else s1
    else s

/-- Image analysis contribution of _fuse_results. -/
def image_contribution : Option ImageResult → FusionState → FusionState
  | none, s => s
  | some i, s =>
    if i.verdict ≠ "error" then
      if i.verdict = "potentially_manipulated" then
        if s.overall_verdict = "reliable" then
          { overall_verdict := "needs_verification",
            confidence := min s.confidence i.confidence,
            explanations :=
              s.explanations ++ [.imageManipulationConflict i.confidence] }
        else
          { overall_verdict := "misinformation",
            confidence := max s.confidence i.confidence,
            explanations :=
              s.explanations ++ [.imageManipulationConfirm i.confidence] }
      else if i.verdict = "authentic" then
        if s.overall_verdict = "unknown" then
          { overall_verdict := "reliable", confidence := i.confidence,
            explanations := s.explanations ++ [.imageAuthentic i.confidence] }
        else if s.overall_verdict = "reliable" then
          { s with
            confidence := max s.confidence i.confidence
            explanations :=
              s.explanations ++ [.imageAuthenticConfirm i.confidence] }
        else s
      else s
    else s

/-- Evidence contribution of _fuse_results. -/
def evidence_contribution (evidence : List EvidenceItem) (s : FusionState) :
    FusionState :=
  if evidence ≠ [] then
    let falseEvidence := evidence.filter (fun e => e.verdict == "false")
    if falseEvidence.length > 0 then
      let s1 :=
        if s.overall_verdict = "unknown" then
          { s with
            overall_verdict := "likely_misinformation"
            confidence := 0.7 }
        else if s.overall_verdict = "reliable" then
          { s with
            overall_verdict := "needs_verification"
            confidence := min s.confidence 0.6 }
        else s
      { s1 with
        explanations :=
          s1.explanations ++ [.debunkedClaims falseEvidence.length] }
    else s
  else s

/-- Final clamp of _fuse_results keeping the confidence inside [0, 1]. -/
def clamp_confidence (s : FusionState) : FusionState :=
  { s with confidence := max 0 (min 1 s.confidence) }

/-- Embedding of _fuse_results: text, image and evidence contributions in
order, then the clamp. -/
def fuse_results (textResult : Option TextResult)
    (imageResult : Option ImageResult) (evidence : List EvidenceItem) :
    FusionState :=
  clamp_confidence (evidence_contribution evidence
    (image_contribution imageResult (text_contribution textResult
      initialFusionState)))

lemma text_contribution_reliable (t : TextResult) (s : FusionState)
    (h : t.prediction = some "reliable") :
    (text_contribution (some t) s).overall_verdict = "reliable" ∧
      (text_contribution (some t) s).confidence = t.confidence := by
  simp only [text_contribution, h]
  split_ifs <;> simp_all

lemma text_contribution_misinformation (t : TextResult) (s : FusionState)
    (h : t.prediction = some "misinformation") :
    (text_contribution (some t) s).overall_verdict = "misinformation" ∧
      (text_contribution (some t) s).confidence = t.confidence := by
  simp only [text_contribution, h]
  split_ifs <;> simp_all

lemma image_contribution_potmanip_on_reliable (i : ImageResult)
    (s : FusionState) (hi : i.verdict = "potentially_manipulated")
    (hs : s.overall_verdict = "reliable") :
    (image_contribution (some i) s).overall_verdict = "needs_verification" ∧
      (image_contribution (some i) s).confidence =
        min s.confidence i.confidence := by
  simp only [image_contribution, hi]
  split_ifs <;> simp_all

lemma image_contribution_potmanip_on_other (i : ImageResult)
    (s : FusionState) (hi : i.verdict = "potentially_manipulated")
    (hs : s.overall_verdict ≠ "reliable") :
    (image_contribution (some i) s).overall_verdict = "misinformation" ∧
      (image_contribution (some i) s).confidence =
        max s.confidence i.confidence := by
  simp only [image_contribution, hi]
  split_ifs <;> simp_all

lemma image_contribution_keeps_misinformation (imageResult : Option ImageResult)
    (s : FusionState) (hs : s.overall_verdict = "misinformation") :
    (image_contribution imageResult s).overall_verdict = "misinformation" := by
  cases imageResult with
  | none => simpa [image_contribution] using hs
  | some i =>
    simp only [image_contribution]
    split_ifs <;> simp_all

lemma evidence_contribution_keeps (evidence : List EvidenceItem)
    (s : FusionState) (h1 : s.overall_verdict ≠ "unknown")
    (h2 : s.overall_verdict ≠ "reliable") :
    (evidence_contribution evidence s).overall_verdict = s.overall_verdict ∧
      (evidence_contribution evidence s).confidence = s.confidence := by
  unfold evidence_contribution
  split_ifs <;> simp_all
  split_ifs <;> simp_all

lemma clamp_confidence_verdict (s : FusionState) :
    (clamp_confidence s).overall_verdict = s.overall_verdict := rfl

lemma clamp_confidence_of_bounds (s : FusionState) (h0 : 0 ≤ s.confidence)
    (h1 : s.confidence ≤ 1) :
    (clamp_confidence s).confidence = s.confidence := by
  unfold clamp_confidence
  simp only [min_eq_right h1, max_eq_right h0]

/-- C1: with a reliable text signal of confidence t and a
potentially-manipulated image signal of confidence i, both confidences in
[0, 1], the fused verdict is needs_verification with confidence min t i;
with a misinformation text signal instead, the fused verdict is
misinformation with confidence max t i. -/
theorem fuse_results_asymmetric_override (tr : TextResult) (ir : ImageResult)
    (ev : List EvidenceItem) (hir : ir.verdict = "potentially_manipulated")
    (ht0 : 0 ≤ tr.confidence) (ht1 : tr.confidence ≤ 1)
    (hi0 : 0 ≤ ir.confidence) (hi1 : ir.confidence ≤ 1) :
    (tr.prediction = some "reliable" →
      (fuse_results (some tr) (some ir) ev).overall_verdict =
        "needs_verification" ∧
      (fuse_results (some tr) (some ir) ev).confidence =
        min tr.confidence ir.confidence) ∧
    (tr.prediction = some "misinformation" →
      (fuse_results (some tr) (some ir) ev).overall_verdict =
        "misinformation" ∧
      (fuse_results (some tr) (some ir) ev).confidence =
        max tr.confidence ir.confidence) := by
  constructor
  · intro hp
    obtain ⟨hv1, hc1⟩ := text_contribution_reliable tr initialFusionState hp
    obtain ⟨hv2, hc2⟩ := image_contribution_potmanip_on_reliable ir _ hir hv1
    rw [hc1] at hc2
    obtain ⟨hv3, hc3⟩ := evidence_contribution_keeps ev _
      (by rw [hv2]; decide) (by rw [hv2]; decide)
    rw [hv2] at hv3
    rw [hc2] at hc3
    have hb0 : 0 ≤ min tr.confidence ir.confidence := le_min ht0 hi0
    have hb1 : min tr.confidence ir.confidence ≤ 1 :=
      le_trans (min_le_left _ _) ht1
    unfold fuse_results
    refine ⟨?_, ?_⟩
    · rw [clamp_confidence_verdict]
      exact hv3
    · rw [clamp_confidence_of_bounds _ (by rw [hc3]; exact hb0)
        (by rw [hc3]; exact hb1)]
      exact hc3
  · intro hp
    obtain ⟨hv1, hc1⟩ := text_contribution_misinformation tr initialFusionState hp
    obtain ⟨hv2, hc2⟩ := image_contribution_potmanip_on_other ir _ hir
      (by rw [hv1]; decide)
    rw [hc1] at hc2
    obtain ⟨hv3, hc3⟩ := evidence_contribution_keeps ev _
      (by rw [hv2]; decide) (by rw [hv2]; decide)
    rw [hv2] at hv3
    rw [hc2] at hc3
    have hb0 : 0 ≤ max tr.confidence ir.confidence :=
      le_trans ht0 (le_max_left _ _)
    have hb1 : max tr.confidence ir.confidence ≤ 1 := max_le ht1 hi1
    unfold fuse_results
    refine ⟨?_, ?_⟩
    · rw [clamp_confidence_verdict]
      exact hv3
    · rw [clamp_confidence_of_bounds _ (by rw [hc3]; exact hb0)
        (by rw [hc3]; exact hb1)]
      exact hc3

/-- C1 witness: the theorem applied to two concrete requests, one with a
reliable text signal of confidence 0.8, one with a misinformation text
signal of confidence 0.8, both against a potentially-manipulated image
signal of confidence 0.6. -/
theorem fuse_results_asymmetric_override_witness :
    ((fuse_results (some ⟨some "reliable", 0.8, none, "en", "", none⟩)
        (some ⟨"potentially_manipulated", 0.6⟩) []).overall_verdict =
      "needs_verification" ∧
      (fuse_results (some ⟨some "reliable", 0.8, none, "en", "", none⟩)
        (some ⟨"potentially_manipulated", 0.6⟩) []).confidence =
        min 0.8 0.6) ∧
    ((fuse_results (some ⟨some "misinformation", 0.8, none, "en", "", none⟩)
        (some ⟨"potentially_manipulated", 0.6⟩) []).overall_verdict =
      "misinformation" ∧
      (fuse_results (some ⟨some "misinformation", 0.8, none, "en", "", none⟩)
        (some ⟨"potentially_manipulated", 0.6⟩) []).confidence =
        max 0.8 0.6) :=
  ⟨(fuse_results_asymmetric_override ⟨some "reliable", 0.8, none, "en", "", none⟩
      ⟨"potentially_manipulated", 0.6⟩ [] rfl (by norm_num) (by norm_num)
      (by norm_num) (by norm_num)).1 rfl,
    (fuse_results_asymmetric_override
      ⟨some "misinformation", 0.8, none, "en", "", none⟩
      ⟨"potentially_manipulated", 0.6⟩ [] rfl (by norm_num) (by norm_num)
      (by norm_num) (by norm_num)).2 rfl⟩

/-- C2: for every text signal, image signal and evidence list, the fused
confidence lies in [0, 1]. -/
theorem fuse_results_confidence_clamped (tr : Option TextResult)
    (ir : Option ImageResult) (ev : List EvidenceItem) :
    0 ≤ (fuse_results tr ir ev).confidence ∧
      (fuse_results tr ir ev).confidence ≤ 1 := by
  unfold fuse_results clamp_confidence
  exact ⟨le_max_left _ _, max_le (by norm_num) (min_le_left _ _)⟩

/-- C3: once the text contribution sets the verdict to misinformation, no
image signal and no evidence list moves the fused verdict away from
misinformation within the same pass. -/
theorem fuse_results_monotone_misinformation (tr : TextResult)
    (h : tr.prediction = some "misinformation") (ir : Option ImageResult)
    (ev : List EvidenceItem) :
    (fuse_results (some tr) ir ev).overall_verdict = "misinformation" := by
  obtain ⟨hv1, _⟩ := text_contribution_misinformation tr initialFusionState h
  have hv2 := image_contribution_keeps_misinformation ir _ hv1
  obtain ⟨hv3, _⟩ := evidence_contribution_keeps ev _
    (by rw [hv2]; decide) (by rw [hv2]; decide)
  rw [hv2] at hv3
  unfold fuse_results
  rw [clamp_confidence_verdict]
  exact hv3

/-- C3 witness: the theorem applied to a misinformation text signal, an
authentic image signal and an evidence list free of debunked claims. -/
theorem fuse_results_monotone_misinformation_witness :
    (fuse_results (some ⟨some "misinformation", 0.9, none, "en", "", none⟩)
      (some ⟨"authentic", 0.95⟩) [⟨"c", "true", 0.8⟩]).overall_verdict =
      "misinformation" :=
  fuse_results_monotone_misinformation
    ⟨some "misinformation", 0.9, none, "en", "", none⟩ rfl
    (some ⟨"authentic", 0.95⟩) [⟨"c", "true", 0.8⟩]

/-- C4: when the evidence list holds at least one item with verdict false,
the evidence step turns an unknown verdict into likely_misinformation with
confidence exactly 0.7, downgrades a reliable verdict to needs_verification
with confidence min(current, 0.6), leaves every other verdict and its
confidence unchanged, and in all cases appends a rationale naming the
number of debunked claims. -/
theorem evidence_step_escalation (s : FusionState) (ev : List EvidenceItem)
    (h : 0 < (ev.filter (fun e => e.verdict == "false")).length) :
    ((evidence_contribution ev s).explanations = s.explanations ++
      [Rationale.debunkedClaims
        (ev.filter (fun e => e.verdict == "false")).length]) ∧
    (s.overall_verdict = "unknown" →
      (evidence_contribution ev s).overall_verdict = "likely_misinformation" ∧
      (evidence_contribution ev s).confidence = 0.7) ∧
    (s.overall_verdict = "reliable" →
      (evidence_contribution ev s).overall_verdict = "needs_verification" ∧
      (evidence_contribution ev s).confidence = min s.confidence 0.6) ∧
    (s.overall_verdict ≠ "unknown" → s.overall_verdict ≠ "reliable" →
      (evidence_contribution ev s).overall_verdict = s.overall_verdict ∧
      (evidence_contribution ev s).confidence = s.confidence) := by
  have hne : ev ≠ [] := by
    intro he
    rw [he] at h
    simp at h
  unfold evidence_contribution
  split_ifs <;> simp_all

/-- C4 witness: the theorem applied to one debunked evidence item over each
of the three verdict classes. -/
theorem evidence_step_escalation_witness :
    ((evidence_contribution [⟨"c", "false", 0.9⟩]
        ⟨"unknown", 0.5, []⟩).overall_verdict = "likely_misinformation" ∧
      (evidence_contribution [⟨"c", "false", 0.9⟩]
        ⟨"unknown", 0.5, []⟩).confidence = 0.7) ∧
    ((evidence_contribution [⟨"c", "false", 0.9⟩]
        ⟨"reliable", 0.8, []⟩).overall_verdict = "needs_verification" ∧
      (evidence_contribution [⟨"c", "false", 0.9⟩]
        ⟨"reliable", 0.8, []⟩).confidence = min 0.8 0.6) ∧
    ((evidence_contribution [⟨"c", "false", 0.9⟩]
        ⟨"misinformation", 0.8, []⟩).overall_verdict = "misinformation" ∧
      (evidence_contribution [⟨"c", "false", 0.9⟩]
        ⟨"misinformation", 0.8, []⟩).confidence = 0.8) :=
  ⟨(evidence_step_escalation ⟨"unknown", 0.5, []⟩ [⟨"c", "false", 0.9⟩]
      (by decide)).2.1 rfl,
    (evidence_step_escalation ⟨"reliable", 0.8, []⟩ [⟨"c", "false", 0.9⟩]
      (by decide)).2.2.1 rfl,
    (evidence_step_escalation ⟨"misinformation", 0.8, []⟩ [⟨"c", "false", 0.9⟩]
      (by decide)).2.2.2 (by decide) (by decide)⟩

/-! Embedding of src/core/evidence_retrieval.py and the request-level
methods of src/core/fusion_engine.py. -/

/-- Fact-check record of the evidence database. -/
structure EvidenceRecord where
  claim : String
  verdict : String
deriving DecidableEq

/-- Loop body of retrieve_evidence: keep the record at the given index when
its similarity clears the 0.3 threshold, decorated with that similarity. -/
def evidence_pick (evidence_data : List EvidenceRecord)
    (similarities : List ℚ) (idx : ℕ) : Option EvidenceItem :=
  if similarities.getD idx 0 > 0.3 then
    match evidence_data[idx]? with
    | some r =>
      some { claim := r.claim, verdict := r.verdict,
             similarity := similarities.getD idx 0 }
    | none => none
  else none

/-- Embedding of retrieve_evidence. The embedding model is abstracted into
the cosine similarity scores, one per database record; the source sorts
the indices by descending similarity with an unstable numpy argsort, takes
the first top_k and keeps those clearing the threshold. -/
def retrieve_evidence (evidence_data : List EvidenceRecord)
    (similarities : List ℚ) (top_k : ℕ) : List EvidenceItem :=
  let top_indices :=
    ((List.range similarities.length).insertionSort
      (fun i j => similarities.getD j 0 ≤ similarities.getD i 0)).take top_k
  top_indices.filterMap (evidence_pick evidence_data similarities)

/-- Results dictionary built by analyze_content; processing_time is real
time and is not modelled. -/
structure AnalyzeResult where
  overall_verdict : String
  confidence : ℚ
  text_analysis : Option TextResult
  image_analysis : Option ImageResult
  evidence : List EvidenceItem
  explanations : List Rationale
  error : Option String
deriving DecidableEq

/-- Initial results dictionary of analyze_content. -/
def initial_results : AnalyzeResult :=
  { overall_verdict := "unknown", confidence := 0, text_analysis := none,
    image_analysis := none, evidence := [], explanations := [],
    error := none }

/-- Text block of analyze_content: run the text producer when text is
truthy, then evidence retrieval with top_k 2 unless the text signal is an
error; a raised exception (the error side) carries the results built so far
with the message attached, as the outer handler of the source returns
them. -/
def textStage (text : Option String)
    (textProducer : String → Except String TextResult)
    (evidenceSource : String → Except String (List EvidenceRecord × List ℚ))
    (r : AnalyzeResult) : Except AnalyzeResult AnalyzeResult :=
  match text with
  | none => .ok r
  | some s =>
    if s = "" then .ok r
    else
      match textProducer s with
      | .error e => .error { r with error := some e }
      | .ok tr =>
        let r1 := { r with text_analysis := some tr }
        if tr.prediction ≠ some "error" then
          match evidenceSource s with
          | .error _ => .ok { r1 with evidence := [] }
          | .ok (db, sims) =>
            .ok { r1 with evidence := retrieve_evidence db sims 2 }
        else .ok r1

/-- Image block of analyze_content, with the same exception convention. -/
def imageStage (image : Option String)
    (imageProducer : String → Except String ImageResult)
    (r : AnalyzeResult) : Except AnalyzeResult AnalyzeResult :=
  match image with
  | none => .ok r
  | some p =>
    if p = "" then .ok r
    else
      match imageProducer p with
      | .error e => .error { r with error := some e }
      | .ok ir => .ok { r with image_analysis := some ir }

/-- Embedding of analyze_content: text block, image block, then the fusion
pass; whichever block raises first makes the function return the results
built so far with the raised message embedded. -/
def analyze_content (text : Option String)
    (textProducer : String → Except String TextResult)
    (evidenceSource : String → Except String (List EvidenceRecord × List ℚ))
    (image : Option String)
    (imageProducer : String → Except String ImageResult) : AnalyzeResult :=
  match textStage text textProducer evidenceSource initial_results with
  | .error r => r
  | .ok r =>
    match imageStage image imageProducer r with
    | .error r2 => r2
    | .ok r2 =>
      let fused := fuse_results r2.text_analysis r2.image_analysis r2.evidence
      { r2 with
        overall_verdict := fused.overall_verdict
        confidence := fused.confidence
        explanations := fused.explanations }

/-- Entry of the list returned by batch_analyze: either a full results
dictionary, or the three-field error dictionary of the source. -/
structure BatchEntry where
  overall_verdict : String
  confidence : ℚ
  result : Option AnalyzeResult
  error : Option String
deriving DecidableEq

/-- Embedding of batch_analyze: process the requests in order, turning a
raised exception into an error entry for that position only. -/
def batch_analyze {α : Type} (contents : List α)
    (process : α → Except String AnalyzeResult) : List BatchEntry :=
  contents.map (fun content =>
    match process content with
    | .ok r =>
      { overall_verdict := r.overall_verdict, confidence := r.confidence,
        result := some r, error := none }
    | .error e =>
      { overall_verdict := "error", confidence := 0, result := none,
        error := some e })

lemma textStage_error_fields {text : Option String}
    {tp : String → Except String TextResult}
    {es : String → Except String (List EvidenceRecord × List ℚ)}
    {r0 r : AnalyzeResult} (h : textStage text tp es r0 = Except.error r) :
    r.overall_verdict = r0.overall_verdict ∧ r.confidence = r0.confidence ∧
      r.evidence = r0.evidence ∧ ∃ m, r.error = some m := by
  cases text with
  | none => simp [textStage] at h
  | some s =>
    by_cases hs : s = ""
    · simp [textStage, hs] at h
    · cases htp : tp s with
      | error e =>
        simp [textStage, hs, htp] at h
        subst h
        exact ⟨rfl, rfl, rfl, e, rfl⟩
      | ok tr =>
        by_cases hpred : tr.prediction ≠ some "error"
        · cases hes : es s with
          | error e2 => simp [textStage, hs, htp, hpred, hes] at h
          | ok pr =>
            obtain ⟨db, sims⟩ := pr
            simp [textStage, hs, htp, hpred, hes] at h
        · simp [textStage, hs, htp, if_neg hpred] at h

lemma textStage_ok_fields {text : Option String}
    {tp : String → Except String TextResult}
    {es : String → Except String (List EvidenceRecord × List ℚ)}
    {r0 r : AnalyzeResult} (h : textStage text tp es r0 = Except.ok r) :
    r.overall_verdict = r0.overall_verdict ∧ r.confidence = r0.confidence ∧
      r.error = r0.error ∧
      (r.evidence = r0.evidence ∨ r.evidence = [] ∨
        ∃ db sims, r.evidence = retrieve_evidence db sims 2) := by
  cases text with
  | none =>
    simp [textStage] at h
    subst h
    exact ⟨rfl, rfl, rfl, Or.inl rfl⟩
  | some s =>
    by_cases hs : s = ""
    · simp [textStage, hs] at h
      subst h
      exact ⟨rfl, rfl, rfl, Or.inl rfl⟩
    · cases htp : tp s with
      | error e => simp [textStage, hs, htp] at h
      | ok tr =>
        by_cases hpred : tr.prediction ≠ some "error"
        · cases hes : es s with
          | error e2 =>
            simp [textStage, hs, htp, hpred, hes] at h
            subst h
            exact ⟨rfl, rfl, rfl, Or.inr (Or.inl rfl)⟩
          | ok pr =>
            obtain ⟨db, sims⟩ := pr
            simp [textStage, hs, htp, hpred, hes] at h
            subst h
            exact ⟨rfl, rfl, rfl, Or.inr (Or.inr ⟨db, sims, rfl⟩)⟩
        · simp [textStage, hs, htp, if_neg hpred] at h
          subst h
          exact ⟨rfl, rfl, rfl, Or.inl rfl⟩

lemma imageStage_error_fields {image : Option String}
    {ip : String → Except String ImageResult} {r0 r : AnalyzeResult}
    (h : imageStage image ip r0 = Except.error r) :
    r.overall_verdict = r0.overall_verdict ∧ r.confidence = r0.confidence ∧
      r.evidence = r0.evidence ∧ ∃ m, r.error = some m := by
  cases image with
  | none => simp [imageStage] at h
  | some p =>
    by_cases hp : p = ""
    · simp [imageStage, hp] at h
    · cases hip : ip p with
      | error e =>
        simp [imageStage, hp, hip] at h
        subst h
        exact ⟨rfl, rfl, rfl, e, rfl⟩
      | ok ir => simp [imageStage, hp, hip] at h

lemma imageStage_ok_fields {image : Option String}
    {ip : String → Except String ImageResult} {r0 r : AnalyzeResult}
    (h : imageStage image ip r0 = Except.ok r) :
    r.overall_verdict = r0.overall_verdict ∧ r.confidence = r0.confidence ∧
      r.evidence = r0.evidence ∧ r.error = r0.error := by
  cases image with
  | none =>
    simp [imageStage] at h
    subst h
    exact ⟨rfl, rfl, rfl, rfl⟩
  | some p =>
    by_cases hp : p = ""
    · simp [imageStage, hp] at h
      subst h
      exact ⟨rfl, rfl, rfl, rfl⟩
    · cases hip : ip p with
      | error e => simp [imageStage, hp, hip] at h
      | ok ir =>
        simp [imageStage, hp, hip] at h
        subst h
        exact ⟨rfl, rfl, rfl, rfl⟩

/-- C10: analyze_content always retrieves evidence with top_k 2, so the
fused evidence list holds at most 2 items; and for every database,
similarity vector and top_k, retrieve_evidence returns at most top_k
items, each with similarity strictly above 0.3, in non-increasing
similarity order. -/
theorem retrieve_evidence_bounded :
    (∀ (text : Option String) (tp : String → Except String TextResult)
      (es : String → Except String (List EvidenceRecord × List ℚ))
      (image : Option String) (ip : String → Except String ImageResult),
      (analyze_content text tp es image ip).evidence.length ≤ 2) ∧
    (∀ (db : List EvidenceRecord) (sims : List ℚ) (top_k : ℕ),
      (retrieve_evidence db sims top_k).length ≤ top_k ∧
      (∀ e ∈ retrieve_evidence db sims top_k, 0.3 < e.similarity) ∧
      List.Pairwise (fun a b => b.similarity ≤ a.similarity)
        (retrieve_evidence db sims top_k)) := by
  have pick_sim : ∀ (db : List EvidenceRecord) (sims : List ℚ) (idx : ℕ)
      (e : EvidenceItem), evidence_pick db sims idx = some e →
      e.similarity = sims.getD idx 0 ∧ 0.3 < e.similarity := by
    intro db sims idx e h
    unfold evidence_pick at h
    split_ifs at h with hgt
    split at h
    · injection h with h
      subst h
      exact ⟨rfl, hgt⟩
    · exact Option.noConfusion h
  have hlen : ∀ (db : List EvidenceRecord) (sims : List ℚ) (k : ℕ),
      (retrieve_evidence db sims k).length ≤ k := by
    intro db sims k
    unfold retrieve_evidence
    refine le_trans (List.length_filterMap_le _ _) ?_
    rw [List.length_take]
    exact min_le_left _ _
  have hmem : ∀ (db : List EvidenceRecord) (sims : List ℚ) (k : ℕ)
      (e : EvidenceItem), e ∈ retrieve_evidence db sims k →
      0.3 < e.similarity := by
    intro db sims k e he
    unfold retrieve_evidence at he
    rw [List.mem_filterMap] at he
    obtain ⟨idx, _, hpick⟩ := he
    exact (pick_sim db sims idx e hpick).2
  have hsorted : ∀ (db : List EvidenceRecord) (sims : List ℚ) (k : ℕ),
      List.Pairwise (fun a b => b.similarity ≤ a.similarity)
        (retrieve_evidence db sims k) := by
    intro db sims k
    unfold retrieve_evidence
    rw [List.pairwise_filterMap]
    have hIdx : List.Pairwise (fun i j => sims.getD j 0 ≤ sims.getD i 0)
        (((List.range sims.length).insertionSort
          (fun i j => sims.getD j 0 ≤ sims.getD i 0)).take k) := by
      refine List.Pairwise.sublist (List.take_sublist _ _) ?_
      haveI : IsTotal ℕ (fun i j => sims.getD j 0 ≤ sims.getD i 0) :=
        ⟨fun a b => le_total (sims.getD b 0) (sims.getD a 0)⟩
      haveI : IsTrans ℕ (fun i j => sims.getD j 0 ≤ sims.getD i 0) :=
        ⟨fun a b c hab hbc => le_trans hbc hab⟩
      exact List.sorted_insertionSort _ _
    refine hIdx.imp ?_
    intro i j hij x hx y hy
    rw [Option.mem_def] at hx hy
    obtain ⟨hxi, _⟩ := pick_sim db sims i x hx
    obtain ⟨hyj, _⟩ := pick_sim db sims j y hy
    rw [hxi, hyj]
    exact hij
  refine ⟨?_, fun db sims k =>
    ⟨hlen db sims k, fun e he => hmem db sims k e he, hsorted db sims k⟩⟩
  intro text tp es image ip
  unfold analyze_content
  cases htext : textStage text tp es initial_results with
  | error r =>
    simp only [htext]
    obtain ⟨_, _, hev, _⟩ := textStage_error_fields htext
    rw [hev]
    simp [initial_results]
  | ok r =>
    simp only [htext]
    obtain ⟨_, _, _, hd⟩ := textStage_ok_fields htext
    cases himg : imageStage image ip r with
    | error r2 =>
      simp only [himg]
      obtain ⟨_, _, hev2, _⟩ := imageStage_error_fields himg
      rw [hev2]
      rcases hd with h1 | h1 | ⟨db, sims, h1⟩ <;> rw [h1]
      · simp [initial_results]
      · simp
      · exact hlen db sims 2
    | ok r2 =>
      simp only [himg]
      obtain ⟨_, _, hev2, _⟩ := imageStage_ok_fields himg
      show r2.evidence.length ≤ 2
      rw [hev2]
      rcases hd with h1 | h1 | ⟨db, sims, h1⟩ <;> rw [h1]
      · simp [initial_results]
      · simp
      · exact hlen db sims 2

/-- C10 witness: the theorem applied to a request with no inputs, and to a
one-record database whose single similarity 1 clears the threshold. -/
theorem retrieve_evidence_bounded_witness :
    (analyze_content none (fun _ => Except.error "x")
      (fun _ => Except.error "x") none
      (fun _ => Except.error "x")).evidence.length ≤ 2 ∧
    (retrieve_evidence [⟨"claim a", "false"⟩] [1] 1).length ≤ 1 ∧
    0.3 < (⟨"claim a", "false", (1 : ℚ)⟩ : EvidenceItem).similarity := by
  have hres : retrieve_evidence [⟨"claim a", "false"⟩] [1] 1 =
      [⟨"claim a", "false", (1 : ℚ)⟩] := by
    unfold retrieve_evidence evidence_pick
    norm_num [List.insertionSort, List.orderedInsert, List.filterMap_cons]
  exact ⟨retrieve_evidence_bounded.1 none _ _ none _,
    (retrieve_evidence_bounded.2 [⟨"claim a", "false"⟩] [1] 1).1,
    (retrieve_evidence_bounded.2 [⟨"claim a", "false"⟩] [1] 1).2.1
      ⟨"claim a", "false", (1 : ℚ)⟩ (by rw [hres]; exact List.mem_singleton_self _)⟩

/-- C5 (amended): whenever analyze_content ends with an embedded error
message, the returned verdict is the initial "unknown" rather than
"error"; in particular a raising text producer yields the initial results
with the raised message attached. -/
theorem analyze_content_exception_result (text : Option String)
    (tp : String → Except String TextResult)
    (es : String → Except String (List EvidenceRecord × List ℚ))
    (image : Option String) (ip : String → Except String ImageResult) :
    (∀ m, (analyze_content text tp es image ip).error = some m →
      (analyze_content text tp es image ip).overall_verdict = "unknown") ∧
    (∀ s msg, text = some s → s ≠ "" → tp s = Except.error msg →
      (analyze_content text tp es image ip).error = some msg ∧
      (analyze_content text tp es image ip).overall_verdict = "unknown") := by
  constructor
  · intro m hm
    unfold analyze_content at hm ⊢
    cases htext : textStage text tp es initial_results with
    | error r =>
      simp only [htext]
      obtain ⟨hv, _, _, _⟩ := textStage_error_fields htext
      rw [hv]
      rfl
    | ok r =>
      simp only [htext] at hm ⊢
      obtain ⟨hv1, _, he1, _⟩ := textStage_ok_fields htext
      cases himg : imageStage image ip r with
      | error r2 =>
        simp only [himg]
        obtain ⟨hv2, _, _, _⟩ := imageStage_error_fields himg
        rw [hv2, hv1]
        rfl
      | ok r2 =>
        simp only [himg] at hm
        obtain ⟨_, _, _, he2⟩ := imageStage_ok_fields himg
        have : r2.error = some m := hm
        rw [he2, he1] at this
        exact Option.noConfusion this
  · intro s msg hts hs htp
    subst hts
    unfold analyze_content textStage
    simp [hs, htp]
    rfl

/-- C5 witness: the amended theorem applied to a raising text producer. -/
theorem analyze_content_exception_result_witness :
    (analyze_content (some "some claim") (fun _ => Except.error "model down")
      (fun _ => Except.ok ([], [])) none
      (fun _ => Except.ok ⟨"authentic", 1⟩)).error = some "model down" ∧
    (analyze_content (some "some claim") (fun _ => Except.error "model down")
      (fun _ => Except.ok ([], [])) none
      (fun _ => Except.ok ⟨"authentic", 1⟩)).overall_verdict = "unknown" :=
  (analyze_content_exception_result (some "some claim") _ _ none _).2
    "some claim" "model down" rfl (by decide) rfl

/-- C5 counterexample: with the engine raising during text analysis, the
returned result embeds the message but its verdict is "unknown", not
"error" as claimed. -/
theorem analyze_content_error_verdict_counterexample :
    (analyze_content (some "claim text") (fun _ => Except.error "boom")
      (fun _ => Except.ok ([], [])) none
      (fun _ => Except.ok ⟨"authentic", 1⟩)).error = some "boom" ∧
    (analyze_content (some "claim text") (fun _ => Except.error "boom")
      (fun _ => Except.ok ([], [])) none
      (fun _ => Except.ok ⟨"authentic", 1⟩)).overall_verdict ≠ "error" :=
  ⟨rfl, by decide⟩

/-- C6: batch_analyze returns one entry per request in order; a raising
request yields the error entry with confidence 0 at its position, and a
succeeding request yields exactly its analyze_content result at its
position. -/
theorem batch_analyze_isolation {α : Type} (contents : List α)
    (process : α → Except String AnalyzeResult) :
    (batch_analyze contents process).length = contents.length ∧
    (∀ (i : ℕ) (c : α), contents[i]? = some c →
      (∀ msg, process c = Except.error msg →
        (batch_analyze contents process)[i]? =
          some { overall_verdict := "error", confidence := 0,
                 result := none, error := some msg }) ∧
      (∀ r, process c = Except.ok r →
        (batch_analyze contents process)[i]? =
          some { overall_verdict := r.overall_verdict,
                 confidence := r.confidence, result := some r,
                 error := none })) := by
  refine ⟨List.length_map _ _, ?_⟩
  intro i c hc
  constructor
  · intro msg hmsg
    unfold batch_analyze
    rw [List.getElem?_map, hc]
    simp [hmsg]
  · intro r hr
    unfold batch_analyze
    rw [List.getElem?_map, hc]
    simp [hr]

/-- C6 witness: a batch of three requests where only the second raises
keeps three entries, the middle one the error entry, the outer two the
per-request results. -/
theorem batch_analyze_isolation_witness :
    (batch_analyze [1, 2, 3] (fun n : ℕ =>
      if n = 2 then Except.error "boom" else Except.ok initial_results)).length
        = 3 ∧
    (batch_analyze [1, 2, 3] (fun n : ℕ =>
      if n = 2 then Except.error "boom" else Except.ok initial_results))[1]? =
      some { overall_verdict := "error", confidence := 0, result := none,
             error := some "boom" } ∧
    (batch_analyze [1, 2, 3] (fun n : ℕ =>
      if n = 2 then Except.error "boom" else Except.ok initial_results))[0]? =
      some { overall_verdict := initial_results.overall_verdict,
             confidence := initial_results.confidence,
             result := some initial_results, error := none } ∧
    (batch_analyze [1, 2, 3] (fun n : ℕ =>
      if n = 2 then Except.error "boom" else Except.ok initial_results))[2]? =
      some { overall_verdict := initial_results.overall_verdict,
             confidence := initial_results.confidence,
             result := some initial_results, error := none } := by
  have h := batch_analyze_isolation [1, 2, 3] (fun n : ℕ =>
    if n = 2 then Except.error "boom" else Except.ok initial_results)
  exact ⟨h.1.trans rfl, (h.2 1 2 rfl).1 "boom" rfl,
    (h.2 0 1 rfl).2 initial_results rfl, (h.2 2 3 rfl).2 initial_results rfl⟩

end MitraVerify
